import Mathlib

/-!
Verification development for the `cbrgm/go-mcp-server` repository.

The development shallowly embeds the request/response delivery layer of the
server: the JSON-RPC message model (`mcp` package), the dispatcher
(`server` package, `Server.HandleRequest` and its method handlers), the
stdio transport (`transport/stdio.go`), and the HTTP/SSE transport
(`transport`, HTTP part).  Go `any` values decoded from JSON are modelled
by the inductive `Json`; Go maps decoded from JSON objects are modelled as
association lists with first-match lookup (Go's decoder produces unique
keys); machine integers that never overflow in the modelled code are
modelled as `Int`.  External collaborators (the tool/resource/prompt
handlers, `json.Marshal`/`json.Unmarshal` on external data) are inputs of
the model: a handler is a function returning `Except String`-values, a
decode result is an `Option`-field of the transport input.
-/

/-- Model of a decoded Go JSON value (`any` after `encoding/json`
unmarshalling): null, booleans, numbers, strings, arrays and objects. -/
inductive Json where
  | null : Json
  | bool (b : Bool) : Json
  | num (n : Int) : Json
  | str (s : String) : Json
  | arr (elems : List Json) : Json
  | obj (fields : List (String × Json)) : Json

/-- Go map indexing `m[key]` on a decoded JSON object: the value when the
key is present, `none` otherwise. -/
def lookupField (fields : List (String × Json)) (key : String) : Option Json :=
  match fields with
  | [] => none
  | (k, v) :: rest => if k = key then some v else lookupField rest key

namespace mcp

/-- `mcp.ProtocolVersion`: the MCP protocol version the implementation supports. -/
def ProtocolVersion : String := "2025-03-26"

/-- `mcp.JSONRPCVersion`: the JSON-RPC version used for all communications. -/
def JSONRPCVersion : String := "2.0"

/-- `mcp.ErrorCodeParseError`. -/
def ErrorCodeParseError : Int := -32700

/-- `mcp.ErrorCodeInvalidRequest`. -/
def ErrorCodeInvalidRequest : Int := -32600

/-- `mcp.ErrorCodeMethodNotFound`. -/
def ErrorCodeMethodNotFound : Int := -32601

/-- `mcp.ErrorCodeInvalidParams`. -/
def ErrorCodeInvalidParams : Int := -32602

/-- `mcp.ErrorCodeInternalError`. -/
def ErrorCodeInternalError : Int := -32603

/-- `mcp.Request`: a JSON-RPC 2.0 request message.  The Go `ID any` field
is a decoded JSON value; Go `nil` (absent or explicit null id) is
`Json.null`.  Go `Params any` with `omitempty` is `Json.null` when absent. -/
structure Request where
  jsonrpc : String
  method : String
  id : Json
  params : Json

/-- `mcp.ErrorResponse`: a JSON-RPC 2.0 error object.  `Data any` with
`omitempty` is `none` when the Go code passes `nil`. -/
structure ErrorResponse where
  code : Int
  message : String
  data : Option Json

/-- `mcp.Response`: a JSON-RPC 2.0 response message.  `Result any` and
`Error *ErrorResponse` both carry `omitempty`: `none` models Go `nil`. -/
structure Response where
  jsonrpc : String
  id : Json
  result : Option Json
  error : Option ErrorResponse

/-- `mcp.ServerInfo`. -/
structure ServerInfo where
  name : String
  version : String

/-- `mcp.ToolCallParams`: required tool name plus argument map. -/
structure ToolCallParams where
  name : String
  arguments : List (String × Json)

/-- `mcp.ResourceParams`: required resource URI. -/
structure ResourceParams where
  uri : String

/-- `mcp.PromptParams`: required prompt name plus argument map. -/
structure PromptParams where
  name : String
  arguments : List (String × Json)

/-- `mcp.ToolHandler`: the external tool capability.  `ListTools` returns
the tool descriptors (opaque JSON values here) or an error message;
`CallTool` returns the tool response object or an error message. -/
structure ToolHandler where
  ListTools : Except String (List Json)
  CallTool : ToolCallParams → Except String Json

/-- `mcp.ResourceHandler`: the external resource capability. -/
structure ResourceHandler where
  ListResources : Except String (List Json)
  ReadResource : ResourceParams → Except String Json
  ListResourceTemplates : Except String (List Json)

/-- `mcp.PromptHandler`: the external prompt capability. -/
structure PromptHandler where
  ListPrompts : Except String (List Json)
  GetPrompt : PromptParams → Except String Json

end mcp

namespace server

open mcp

/-- `server.Server`: the dispatcher with its three external handler
capability groups and static server metadata. -/
structure Server where
  toolHandler : ToolHandler
  resourceHandler : ResourceHandler
  promptHandler : PromptHandler
  serverInfo : ServerInfo

/-- The one send call the dispatcher makes on the active
`mcp.ResponseSender` for a request: either `SendResponse(response)` or
`SendError(id, code, message, data)`. -/
inductive SendCall where
  | sendResponse (response : Response) : SendCall
  | sendError (id : Json) (code : Int) (message : String) (data : Option Json) : SendCall

/-- `Server.sendResponse`: builds the success `mcp.Response` (JSON-RPC
version tag, the request id, the result; no error field) and hands it to
the active sender's `SendResponse`. -/
def Server.sendResponse (id : Json) (result : Json) : SendCall :=
  SendCall.sendResponse
    { jsonrpc := JSONRPCVersion, id := id, result := some result, error := none }

/-- `Server.sendError`: hands `(id, code, message, data)` to the active
sender's `SendError`. -/
def Server.sendError (id : Json) (code : Int) (message : String) (data : Option Json) : SendCall :=
  SendCall.sendError id code message data

/-- `Server.Initialize`: always succeeds with the fixed protocol version,
the capability advertisement and the server metadata, serialized here as
the JSON object the Go structure encodes to. -/
def Server.Initialize (s : Server) : Except String Json :=
  Except.ok (Json.obj
    [("protocolVersion", Json.str ProtocolVersion),
     ("capabilities", Json.obj
       [("tools", Json.obj [("listChanged", Json.bool true)]),
        ("resources", Json.obj [("listChanged", Json.bool true), ("templates", Json.bool true)]),
        ("prompts", Json.obj [("listChanged", Json.bool true)]),
        ("elicitation", Json.obj [])]),
     ("serverInfo", Json.obj
       [("name", Json.str s.serverInfo.name),
        ("version", Json.str s.serverInfo.version)])])

/-- `Server.parseToolCallParams`: params must be a non-nil object with a
string `name`; a present `arguments` value is taken only when it is an
object, otherwise the arguments stay the fresh empty map. -/
def parseToolCallParams (params : Json) : Except String ToolCallParams :=
  match params with
  | Json.null => Except.error "params cannot be nil"
  | Json.obj paramsMap =>
    match lookupField paramsMap "name" with
    | some (Json.str name) =>
      let args : List (String × Json) :=
        match lookupField paramsMap "arguments" with
        | some (Json.obj argsMap) => argsMap
        | _ => []
      Except.ok { name := name, arguments := args }
    | _ => Except.error "name parameter is required and must be a string"
  | _ => Except.error "params must be an object"

/-- `Server.parseResourceParams`: params must be a non-nil object with a
string `uri`. -/
def parseResourceParams (params : Json) : Except String ResourceParams :=
  match params with
  | Json.null => Except.error "params cannot be nil"
  | Json.obj paramsMap =>
    match lookupField paramsMap "uri" with
    | some (Json.str uri) => Except.ok { uri := uri }
    | _ => Except.error "uri parameter is required and must be a string"
  | _ => Except.error "params must be an object"

/-- `Server.parsePromptParams`: params must be a non-nil object with a
string `name`; a present `arguments` value is taken only when it is an
object, otherwise the arguments stay the fresh empty map. -/
def parsePromptParams (params : Json) : Except String PromptParams :=
  match params with
  | Json.null => Except.error "params cannot be nil"
  | Json.obj paramsMap =>
    match lookupField paramsMap "name" with
    | some (Json.str name) =>
      let args : List (String × Json) :=
        match lookupField paramsMap "arguments" with
        | some (Json.obj argsMap) => argsMap
        | _ => []
      Except.ok { name := name, arguments := args }
    | _ => Except.error "name parameter is required and must be a string"
  | _ => Except.error "params must be an object"

/-- `Server.handleInitialize`. -/
def Server.handleInitialize (s : Server) (id : Json) : SendCall :=
  match s.Initialize with
  | Except.error e => Server.sendError id ErrorCodeInternalError "Failed to initialize" (some (Json.str e))
  | Except.ok result => Server.sendResponse id result

/-- `Server.handleToolsList`: wraps the handler's sequence under the
`tools` key; a handler error becomes an internal error. -/
def Server.handleToolsList (s : Server) (id : Json) : SendCall :=
  match s.toolHandler.ListTools with
  | Except.error e => Server.sendError id ErrorCodeInternalError "Failed to list tools" (some (Json.str e))
  | Except.ok tools => Server.sendResponse id (Json.obj [("tools", Json.arr tools)])

/-- `Server.handleToolsCall`: extraction failure and handler failure both
become invalid-params errors; success returns the handler's response
object verbatim. -/
def Server.handleToolsCall (s : Server) (id : Json) (req : Request) : SendCall :=
  match parseToolCallParams req.params with
  | Except.error e =>
    Server.sendError id ErrorCodeInvalidParams "Invalid tool call parameters" (some (Json.str e))
  | Except.ok params =>
    match s.toolHandler.CallTool params with
    | Except.error e =>
      Server.sendError id ErrorCodeInvalidParams ("Tool call failed: " ++ e) none
    | Except.ok response => Server.sendResponse id response

/-- `Server.handleResourcesList`. -/
def Server.handleResourcesList (s : Server) (id : Json) : SendCall :=
  match s.resourceHandler.ListResources with
  | Except.error e => Server.sendError id ErrorCodeInternalError "Failed to list resources" (some (Json.str e))
  | Except.ok resources => Server.sendResponse id (Json.obj [("resources", Json.arr resources)])

/-- `Server.handleResourcesRead`. -/
def Server.handleResourcesRead (s : Server) (id : Json) (req : Request) : SendCall :=
  match parseResourceParams req.params with
  | Except.error e =>
    Server.sendError id ErrorCodeInvalidParams "Invalid resource read parameters" (some (Json.str e))
  | Except.ok params =>
    match s.resourceHandler.ReadResource params with
    | Except.error e =>
      Server.sendError id ErrorCodeInvalidParams ("Resource read failed: " ++ e) none
    | Except.ok response => Server.sendResponse id response

/-- `Server.handleResourceTemplatesList`. -/
def Server.handleResourceTemplatesList (s : Server) (id : Json) : SendCall :=
  match s.resourceHandler.ListResourceTemplates with
  | Except.error e =>
    Server.sendError id ErrorCodeInternalError "Failed to list resource templates" (some (Json.str e))
  | Except.ok templates =>
    Server.sendResponse id (Json.obj [("resourceTemplates", Json.arr templates)])

/-- `Server.handlePromptsList`. -/
def Server.handlePromptsList (s : Server) (id : Json) : SendCall :=
  match s.promptHandler.ListPrompts with
  | Except.error e => Server.sendError id ErrorCodeInternalError "Failed to list prompts" (some (Json.str e))
  | Except.ok prompts => Server.sendResponse id (Json.obj [("prompts", Json.arr prompts)])

/-- `Server.handlePromptsGet`. -/
def Server.handlePromptsGet (s : Server) (id : Json) (req : Request) : SendCall :=
  match parsePromptParams req.params with
  | Except.error e =>
    Server.sendError id ErrorCodeInvalidParams "Invalid prompt parameters" (some (Json.str e))
  | Except.ok params =>
    match s.promptHandler.GetPrompt params with
    | Except.error e =>
      Server.sendError id ErrorCodeInvalidParams ("Prompt call failed: " ++ e) none
    | Except.ok response => Server.sendResponse id response

/-- `Server.handlePing`: an empty success payload. -/
def Server.handlePing (id : Json) : SendCall :=
  Server.sendResponse id (Json.obj [])

/-- `Server.HandleRequest`: the dispatcher's method switch (exact,
case-sensitive match); an unknown method yields a method-not-found error
with the offending name embedded in the message.  Always exactly one send
call; the request id is passed to every handler unchanged. -/
def Server.HandleRequest (s : Server) (req : Request) : SendCall :=
  if req.method = "initialize" then s.handleInitialize req.id
  else if req.method = "tools/list" then s.handleToolsList req.id
  else if req.method = "tools/call" then s.handleToolsCall req.id req
  else if req.method = "resources/list" then s.handleResourcesList req.id
  else if req.method = "resources/read" then s.handleResourcesRead req.id req
  else if req.method = "resources/templates/list" then s.handleResourceTemplatesList req.id
  else if req.method = "prompts/list" then s.handlePromptsList req.id
  else if req.method = "prompts/get" then s.handlePromptsGet req.id req
  else if req.method = "ping" then Server.handlePing req.id
  else Server.sendError req.id ErrorCodeMethodNotFound ("Method " ++ req.method ++ " not found") none

/-- The `mcp.Response` a sender emits for a dispatcher send call: a
`SendResponse` emits its argument; every sender's `SendError`
(`HTTPResponseSender.SendError`, `StdoutSender.SendError`,
`SSESession.sendError`) builds the same error envelope — JSON-RPC version
tag, the given id, no result, the error object — and emits that. -/
def senderEmittedResponse : SendCall → Response
  | SendCall.sendResponse r => r
  | SendCall.sendError id code message data =>
    { jsonrpc := JSONRPCVersion, id := id, result := none,
      error := some { code := code, message := message, data := data } }

end server

namespace transport

open mcp server

/-! ### Stdio transport (`transport/stdio.go`) -/

/-- One raw stdin line, abstracted by the results of the two
`json.Unmarshal` attempts the stdio transport can run on it:
`asRequest` is the decode into `mcp.Request` (`none` on decode failure),
`asMap` is the decode into `map[string]any` used by the best-effort id
recovery, and `decodeErrMsg` is the text of the decode error used as the
error response's diagnostic data. -/
structure RawLine where
  asRequest : Option Request
  asMap : Option (List (String × Json))
  decodeErrMsg : String

/-- The id-recovery of `Stdio.sendParseError`: start from the sentinel
`-1`; when the raw payload parses as a JSON object holding a non-null
`id` value, use that value instead. -/
def recoverId (line : RawLine) : Json :=
  match line.asMap with
  | none => Json.num (-1)
  | some partialReq =>
    match lookupField partialReq "id" with
    | none => Json.num (-1)
    | some v =>
      match v with
      | Json.null => Json.num (-1)
      | _ => v

/-- The error line `Stdio.sendParseError` writes: a parse-error response
with the recovered (or sentinel) id and the decode error as data. -/
def sendParseErrorResponse (line : RawLine) : Response :=
  { jsonrpc := JSONRPCVersion, id := recoverId line, result := none,
    error := some { code := ErrorCodeParseError, message := "Parse error",
                    data := some (Json.str line.decodeErrMsg) } }

/-- What `Stdio.handleMessage` does with one line: emit one error line
(decode failure), drop the message with only a log line (wrong JSON-RPC
version, or a null id meaning a notification), or dispatch the decoded
request with the stdout sender attached. -/
inductive StdioAction where
  | emit (response : Response) : StdioAction
  | dropped : StdioAction
  | dispatched (req : Request) : StdioAction

/-- `Stdio.handleMessage`: decode failure goes to `sendParseError`; then
the JSON-RPC version check (log and drop), then the notification check
(log and drop), then dispatch via `Server.HandleRequest`. -/
def handleMessage (line : RawLine) : StdioAction :=
  match line.asRequest with
  | none => StdioAction.emit (sendParseErrorResponse line)
  | some req =>
    if req.jsonrpc ≠ JSONRPCVersion then StdioAction.dropped
    else
      match req.id with
      | Json.null => StdioAction.dropped
      | _ => StdioAction.dispatched req

/-- The stdout lines one stdin line causes: the parse-error line, nothing,
or the one response the dispatcher's send call makes the `StdoutSender`
print. -/
def stdioOutput (s : Server) (line : RawLine) : List Response :=
  match handleMessage line with
  | StdioAction.emit r => [r]
  | StdioAction.dropped => []
  | StdioAction.dispatched req => [senderEmittedResponse (s.HandleRequest req)]

/-- One unit of stdin input in the read loop of `Stdio.Start`: an empty
line (skipped) or a raw line handed to `handleMessage`. -/
inductive StdioInput where
  | emptyLine : StdioInput
  | line (l : RawLine) : StdioInput

/-- The read loop of `Stdio.Start` over a finite stream of lines: every
non-empty line is handled independently and the loop always continues to
the next line (a `handleMessage` error is only logged). -/
def stdioLoop (s : Server) : List StdioInput → List Response
  | [] => []
  | StdioInput.emptyLine :: rest => stdioLoop s rest
  | StdioInput.line l :: rest => stdioOutput s l ++ stdioLoop s rest

/-! ### Direct response senders -/

/-- The outcome of one `SendResponse` attempt on a direct sender: the
response was written to the underlying stream, or the attempt failed with
an error message and nothing was written. -/
inductive SendOutcome where
  | written (response : Response) : SendOutcome
  | failed (msg : String) : SendOutcome

/-- `transport.HTTPResponseSender`: guards the response writer with a
`sent` flag. -/
structure HTTPResponseSender where
  sent : Bool

/-- `HTTPResponseSender.SendResponse`: fails with "response already sent"
when the flag is set; otherwise writes the JSON body and sets the flag. -/
def HTTPResponseSender.SendResponse (h : HTTPResponseSender) (response : Response) :
    HTTPResponseSender × SendOutcome :=
  if h.sent then (h, SendOutcome.failed "response already sent")
  else ({ sent := true }, SendOutcome.written response)

/-- `HTTPResponseSender.SendError`: builds the error envelope and goes
through `SendResponse` (so it obeys the same `sent` guard). -/
def HTTPResponseSender.SendError (h : HTTPResponseSender) (id : Json) (code : Int)
    (message : String) (data : Option Json) : HTTPResponseSender × SendOutcome :=
  h.SendResponse
    { jsonrpc := JSONRPCVersion, id := id, result := none,
      error := some { code := code, message := message, data := data } }

/-- `transport.StdoutSender.SendResponse`: marshals the response and
prints one line; there is no state and no already-sent guard. -/
def StdoutSender.SendResponse (response : Response) : SendOutcome :=
  SendOutcome.written response

/-- `transport.StdoutSender.SendError`: builds the error envelope and
goes through `StdoutSender.SendResponse`. -/
def StdoutSender.SendError (id : Json) (code : Int) (message : String) (data : Option Json) :
    SendOutcome :=
  StdoutSender.SendResponse
    { jsonrpc := JSONRPCVersion, id := id, result := none,
      error := some { code := code, message := message, data := data } }

/-! ### HTTP transport: POST /mcp -/

/-- `p.isPrefixOf s` for char lists, mirroring the prefix test inside
Go's `strings.Contains`. -/
def charsPrefixOf : List Char → List Char → Bool
  | [], _ => true
  | _ :: _, [] => false
  | a :: as, b :: bs => a = b && charsPrefixOf as bs

/-- Substring containment on char lists. -/
def charsContains (pat : List Char) : List Char → Bool
  | [] => charsPrefixOf pat []
  | c :: rest => charsPrefixOf pat (c :: rest) || charsContains pat rest

/-- Go `strings.Contains s substr`. -/
def stringContains (s pat : String) : Bool :=
  charsContains pat.toList s.toList

/-- One POST /mcp exchange, abstracted by its `Accept` header and the
result of decoding its body into `mcp.Request` (`none` on decode
failure, with the decode error text). -/
structure PostRequest where
  acceptHeader : String
  body : Option Request
  decodeErrMsg : String

/-- The error response `HTTPTransport.sendError` writes as a 400-status
JSON body. -/
def transportErrorResponse (id : Json) (code : Int) (message : String) (data : Option Json) :
    Response :=
  { jsonrpc := JSONRPCVersion, id := id, result := none,
    error := some { code := code, message := message, data := data } }

/-- The outcome of `HTTPTransport.handlePost` before any dispatch: an
error body written by `HTTPTransport.sendError` (decode failure, bad
Accept header, bad JSON-RPC version), a bare 204 No Content with no body
(notification), or the request handed to the SSE or direct-JSON dispatch
path. -/
inductive PostOutcome where
  | errorBody (response : Response) : PostOutcome
  | noContent : PostOutcome
  | sseDispatch (req : Request) : PostOutcome
  | jsonDispatch (req : Request) : PostOutcome

/-- `HTTPTransport.handlePost`: decode, Accept-header check, JSON-RPC
version check, notification check, then dispatch (SSE-promoted when the
client accepts `text/event-stream`, direct JSON otherwise). -/
def handlePost (p : PostRequest) : PostOutcome :=
  match p.body with
  | none =>
    PostOutcome.errorBody
      (transportErrorResponse (Json.num (-1)) ErrorCodeParseError "Parse error"
        (some (Json.str p.decodeErrMsg)))
  | some req =>
    let wantsSSE := stringContains p.acceptHeader "text/event-stream"
    let wantsJSON := stringContains p.acceptHeader "application/json"
    if !wantsJSON && !wantsSSE then
      PostOutcome.errorBody
        (transportErrorResponse req.id ErrorCodeInvalidRequest
          "Accept header must include application/json and/or text/event-stream" none)
    else if req.jsonrpc ≠ JSONRPCVersion then
      PostOutcome.errorBody
        (transportErrorResponse req.id ErrorCodeInvalidRequest "Invalid JSON-RPC version" none)
    else
      match req.id with
      | Json.null => PostOutcome.noContent
      | _ => if wantsSSE then PostOutcome.sseDispatch req else PostOutcome.jsonDispatch req

/-- Whether a `handlePost` outcome writes a JSON-RPC response body to the
connection (directly or through the dispatched exchange); a notification's
204 acknowledgment carries no body. -/
def postWritesResponseBody : PostOutcome → Bool
  | PostOutcome.errorBody _ => true
  | PostOutcome.noContent => false
  | PostOutcome.sseDispatch _ => true
  | PostOutcome.jsonDispatch _ => true

/-! ### HTTP transport: SSE sessions -/

/-- Digit accumulator for the model of Go `strconv.Atoi`: consumes the
remaining characters, failing on the first non-digit. -/
def digitsValAux (acc : Nat) : List Char → Option Nat
  | [] => some acc
  | c :: rest =>
    if c.isDigit then digitsValAux (acc * 10 + (c.toNat - 48)) rest else none

/-- Go `strconv.Atoi`: an optional single sign followed by one or more
decimal digits; anything else is an error (overflow is not modelled —
the event cursor is an unbounded integer here). -/
def atoi (s : String) : Option Int :=
  match s.toList with
  | [] => none
  | '+' :: rest =>
    match rest with
    | [] => none
    | _ => (digitsValAux 0 rest).map Int.ofNat
  | '-' :: rest =>
    match rest with
    | [] => none
    | _ => (digitsValAux 0 rest).map (fun n => -(Int.ofNat n))
  | l => (digitsValAux 0 l).map Int.ofNat

/-- `transport.SSESession`: session id, event-id cursor, closed flag.
The underlying writer and flusher are represented by the frames the
session emits. -/
structure SSESession where
  ID : String
  eventID : Int
  closed : Bool

/-- One framed SSE event as written by `SSESession.sendEvent`: the `id:`
line value, the optional `event:` line, and the `data:` lines (the
serialized payload split on newlines). -/
structure SSEFrame where
  id : Int
  eventType : Option String
  dataLines : List String

/-- `SSESession.sendEvent`: fails immediately on a closed session; a
marshal failure (the `json.Marshal` result is an input of the model)
aborts the send before anything is written and before the cursor moves;
otherwise one frame is written with the current cursor — `id:` line,
`event:` line only for a non-empty event type, one `data:` line per
newline-separated piece of the payload — and the cursor increments by
one. -/
def SSESession.sendEvent (s : SSESession) (eventType : String)
    (marshalResult : Except String String) : SSESession × Except String SSEFrame :=
  if s.closed then (s, Except.error "session closed")
  else
    match marshalResult with
    | Except.error e => (s, Except.error e)
    | Except.ok dataStr =>
      ({ s with eventID := s.eventID + 1 },
       Except.ok
         { id := s.eventID,
           eventType := if eventType = "" then none else some eventType,
           dataLines := dataStr.splitOn "\n" })

/-- `SSESession.close`: marks the session closed. -/
def SSESession.close (s : SSESession) : SSESession :=
  { s with closed := true }

/-- The session record `HTTPTransport.startSSEStream` builds: the event
cursor restarts at 0 unless the `Last-Event-ID` header is a parseable
integer, in which case it continues at that value plus one; the session
id is the `Mcp-Session-Id` header when given, else `session_` plus the
current nanosecond timestamp (an input of the model). -/
def startSSEStream (lastEventID mcpSessionID : String) (nowNano : Int) : SSESession :=
  let eventID : Int :=
    if lastEventID ≠ "" then
      match atoi lastEventID with
      | some id => id + 1
      | none => 0
    else 0
  let sessionID : String :=
    if mcpSessionID = "" then "session_" ++ toString nowNano else mcpSessionID
  { ID := sessionID, eventID := eventID, closed := false }

/-- A sequence of `sendEvent` calls on one session (event type and
marshal result per call): the final session state and the frames of the
successful sends, in call order (the per-session lock serializes them). -/
def runSends (s : SSESession) : List (String × Except String String) → SSESession × List SSEFrame
  | [] => (s, [])
  | (et, mr) :: rest =>
    match s.sendEvent et mr with
    | (s', Except.error _) => runSends s' rest
    | (s', Except.ok f) => ((runSends s' rest).1, f :: (runSends s' rest).2)

/-- The consecutive integers `start, start+1, …` of the given length. -/
def intRange (start : Int) : Nat → List Int
  | 0 => []
  | Nat.succ n => start :: intRange (start + 1) n

/-! ### HTTP transport: session registry lifecycle -/

/-- Go `delete(t.sessions, sid)` on the registry modelled as an
association list. -/
def removeSession (sid : String) (l : List (String × SSESession)) :
    List (String × SSESession) :=
  l.filter (fun p => p.1 ≠ sid)

/-- Go `t.sessions[s.ID] = s`. -/
def insertSession (s : SSESession) (l : List (String × SSESession)) :
    List (String × SSESession) :=
  (s.ID, s) :: removeSession s.ID l

/-- The state of one `HTTPTransport`: the session registry guarded by the
registry lock, plus the ghost set `openStreams` of session ids whose
underlying HTTP connection is still open and writable (a connection opens
when its handler starts the SSE stream and ends when that handler
returns or its context is cancelled). -/
structure HTTPTransportState where
  sessions : List (String × SSESession)
  openStreams : List String

/-- A fresh transport: empty registry (`NewHTTP`). -/
def initialTransportState : HTTPTransportState :=
  { sessions := [], openStreams := [] }

/-- The registry-affecting events of the HTTP transport's lifetime:
`getOpen` — a GET /mcp handler starts its SSE stream and registers the
session; it then blocks on `<-ctx.Done()` where `ctx` is the transport's
root context closed over from `Start`, not the request's context;
`getDisconnect` — the client of a blocked GET closes its connection: the
stream dies, but the handler is waiting on the root context rather than
the request's, so it stays blocked and deletes nothing; `getCancel` —
the transport's root context is cancelled (server shutdown): the blocked
handler resumes, the connection ends, and the handler deletes its
session from the registry; `ssePost` — an SSE-promoted POST handler
starts a stream, registers the session, dispatches, and returns (its
connection then ends, with no deletion in `handleSSERequest`); `stop` —
`HTTPTransport.Stop` closes every session and clears the registry. -/
inductive TransportEvent where
  | getOpen (lastEventID mcpSessionID : String) (nowNano : Int) : TransportEvent
  | getDisconnect (sessionID : String) : TransportEvent
  | getCancel (sessionID : String) : TransportEvent
  | ssePost (lastEventID mcpSessionID : String) (nowNano : Int) : TransportEvent
  | stop : TransportEvent

/-- One registry-affecting step of the HTTP transport.  `getOpen`
registers the session and its connection is live; `getDisconnect` ends
the stream but removes nothing from the registry, because `handleGet`
waits on the transport's root context and a client disconnect never
unblocks it; `getCancel` (root-context cancellation) removes the session
from the registry as `handleGet` does after `<-ctx.Done()`, the
connection having ended; `ssePost` registers the session but the
connection ends when the handler returns, leaving the session registered
with no open stream; `stop` closes everything and clears the registry. -/
def transportStep (st : HTTPTransportState) : TransportEvent → HTTPTransportState
  | TransportEvent.getOpen h sid now =>
    let s := startSSEStream h sid now
    { sessions := insertSession s st.sessions,
      openStreams := s.ID :: st.openStreams.filter (fun x => x ≠ s.ID) }
  | TransportEvent.getDisconnect sid =>
    { sessions := st.sessions,
      openStreams := st.openStreams.filter (fun x => x ≠ sid) }
  | TransportEvent.getCancel sid =>
    { sessions := removeSession sid st.sessions,
      openStreams := st.openStreams.filter (fun x => x ≠ sid) }
  | TransportEvent.ssePost h sid now =>
    let s := startSSEStream h sid now
    { sessions := insertSession s st.sessions,
      openStreams := st.openStreams.filter (fun x => x ≠ s.ID) }
  | TransportEvent.stop => { sessions := [], openStreams := [] }

/-- A run of the transport from the fresh state through a finite sequence
of registry-affecting events. -/
def runTransport (events : List TransportEvent) : HTTPTransportState :=
  events.foldl transportStep initialTransportState

/-- The claimed Session Registry invariant: a session id is present in
the registry iff its underlying stream is still open and writable. -/
def registryInvariant (st : HTTPTransportState) : Prop :=
  ∀ sid : String, (∃ s, (sid, s) ∈ st.sessions) ↔ sid ∈ st.openStreams

/-- `HTTPTransport.Stop`: under the registry lock, every registered
session is closed and the registry is replaced by a fresh empty map.
Returns the new transport state together with the previously registered
sessions as left in their closed state (other holders of those sessions,
such as senders, see the closed flag). -/
def Stop (st : HTTPTransportState) : HTTPTransportState × List SSESession :=
  ({ sessions := [], openStreams := [] },
   st.sessions.map (fun p => p.2.close))

/-- Two consecutive `SendResponse` attempts on the stateless
`StdoutSender` for one logical exchange: the outcomes of the first and
the second attempt. -/
def stdoutSendTwice (r₁ r₂ : mcp.Response) : SendOutcome × SendOutcome :=
  (StdoutSender.SendResponse r₁, StdoutSender.SendResponse r₂)

end transport

open mcp server transport

/-- Spec-side predicate, worded from the claims: parameter extraction for
a method family succeeds exactly when the params value is an object whose
required field is present as a string (so it fails when params is
nil/null, not an object, or the field is missing or not a string).  Used
only to compare with the extraction functions taken from the source. -/
def specParamsHasStringField (params : Json) (field : String) : Bool :=
  match params with
  | Json.obj fields =>
    match lookupField fields field with
    | some (Json.str _) => true
    | _ => false
  | _ => false

/-- Whether an `Except` result is a success. -/
def exceptIsOk {α : Type} : Except String α → Bool
  | Except.ok _ => true
  | Except.error _ => false

/-- A concrete dispatcher whose external handlers always succeed. -/
def trivialServer : Server :=
  { toolHandler :=
      { ListTools := Except.ok [], CallTool := fun _ => Except.ok (Json.obj []) },
    resourceHandler :=
      { ListResources := Except.ok [], ReadResource := fun _ => Except.ok (Json.obj []),
        ListResourceTemplates := Except.ok [] },
    promptHandler :=
      { ListPrompts := Except.ok [], GetPrompt := fun _ => Except.ok (Json.obj []) },
    serverInfo := { name := "MCP Server", version := "1.0.0" } }

/-- A concrete ping request with a numeric id. -/
def pingRequest : Request :=
  { jsonrpc := "2.0", method := "ping", id := Json.num 1, params := Json.null }

/-- A concrete tools/call request whose params object lacks `name`. -/
def toolCallNoNameRequest : Request :=
  { jsonrpc := "2.0", method := "tools/call", id := Json.num 2, params := Json.obj [] }

/-- A concrete notification: null id. -/
def notificationRequest : Request :=
  { jsonrpc := "2.0", method := "notifications/initialized", id := Json.null,
    params := Json.null }

/-- A POST carrying the notification with an Accept header that declares
neither JSON nor event-stream. -/
def badAcceptPost : PostRequest :=
  { acceptHeader := "text/plain", body := some notificationRequest, decodeErrMsg := "" }

/-- A concrete request carrying a wrong JSON-RPC version tag. -/
def wrongVersionRequest : Request :=
  { jsonrpc := "1.0", method := "ping", id := Json.num 1, params := Json.null }

/-- A stdio line that decodes to the wrong-version request. -/
def wrongVersionLine : RawLine :=
  { asRequest := some wrongVersionRequest, asMap := some [("jsonrpc", Json.str "1.0")],
    decodeErrMsg := "" }

/-- A stdio line that fails to decode but whose raw payload parses as an
object with a numeric id. -/
def malformedLine : RawLine :=
  { asRequest := none, asMap := some [("id", Json.num 7)],
    decodeErrMsg := "unexpected end of JSON input" }

/-- A transport state with one registered session on an open stream. -/
def stopSampleState : HTTPTransportState :=
  { sessions := [("a", { ID := "a", eventID := 5, closed := false })],
    openStreams := ["a"] }

/-- A fresh open SSE session. -/
def freshSession : SSESession :=
  { ID := "s", eventID := 0, closed := false }

/-- A params object whose `arguments` value is a string, not an object. -/
def misTypedArgsFields : List (String × Json) :=
  [("name", Json.str "getTeaInfo"), ("arguments", Json.str "oops")]


/-- C1: for every request with a non-null id, the response the active
Response Sender emits for the dispatcher's send call carries the JSON-RPC
version tag and the request's id unchanged, and exactly one of
result/error is populated: a successful handler result yields result set
with error absent, and every dispatcher error yields error set with
result absent. -/
theorem dispatcher_response_wellformed (s : Server) (req : Request)
    (hid : req.id ≠ Json.null) :
    (senderEmittedResponse (s.HandleRequest req)).jsonrpc = JSONRPCVersion ∧
    (senderEmittedResponse (s.HandleRequest req)).id = req.id ∧
    (((senderEmittedResponse (s.HandleRequest req)).result.isSome = true ∧
      (senderEmittedResponse (s.HandleRequest req)).error = none) ∨
     ((senderEmittedResponse (s.HandleRequest req)).error.isSome = true ∧
      (senderEmittedResponse (s.HandleRequest req)).result = none)) := by
  unfold Server.HandleRequest Server.handleInitialize Server.handleToolsList
    Server.handleToolsCall Server.handleResourcesList Server.handleResourcesRead
    Server.handleResourceTemplatesList Server.handlePromptsList Server.handlePromptsGet
    Server.handlePing Server.sendResponse Server.sendError Server.Initialize
  repeat' split
  all_goals simp [senderEmittedResponse]

/-- Witness for C1 at the concrete ping request. -/
theorem dispatcher_response_wellformed_witness :
    pingRequest.id ≠ Json.null ∧
    ((senderEmittedResponse (trivialServer.HandleRequest pingRequest)).jsonrpc = JSONRPCVersion ∧
     (senderEmittedResponse (trivialServer.HandleRequest pingRequest)).id = pingRequest.id ∧
     (((senderEmittedResponse (trivialServer.HandleRequest pingRequest)).result.isSome = true ∧
       (senderEmittedResponse (trivialServer.HandleRequest pingRequest)).error = none) ∨
      ((senderEmittedResponse (trivialServer.HandleRequest pingRequest)).error.isSome = true ∧
       (senderEmittedResponse (trivialServer.HandleRequest pingRequest)).result = none))) :=
  ⟨fun h => Json.noConfusion h,
   dispatcher_response_wellformed trivialServer pingRequest (fun h => Json.noConfusion h)⟩

/-- C3: for tools/call, resources/read and prompts/get, extraction
failure yields an invalid-params error, a handler-reported failure also
yields an invalid-params error (never an internal error), and a handler
success yields the handler's response object verbatim as the result;
moreover extraction succeeds exactly when params is an object carrying
the required string field (`name` for tool calls and prompt fetches,
`uri` for resource reads) — so nil, non-object params or a missing or
non-string field fail. -/
theorem dispatcher_call_read_get_classification (s : Server) (req : Request) :
    (req.method = "tools/call" →
      (∀ e, parseToolCallParams req.params = Except.error e →
        s.HandleRequest req = SendCall.sendError req.id ErrorCodeInvalidParams
          "Invalid tool call parameters" (some (Json.str e))) ∧
      (∀ p e, parseToolCallParams req.params = Except.ok p →
        s.toolHandler.CallTool p = Except.error e →
        s.HandleRequest req = SendCall.sendError req.id ErrorCodeInvalidParams
          ("Tool call failed: " ++ e) none) ∧
      (∀ p r, parseToolCallParams req.params = Except.ok p →
        s.toolHandler.CallTool p = Except.ok r →
        s.HandleRequest req = SendCall.sendResponse
          { jsonrpc := JSONRPCVersion, id := req.id, result := some r, error := none })) ∧
    (req.method = "resources/read" →
      (∀ e, parseResourceParams req.params = Except.error e →
        s.HandleRequest req = SendCall.sendError req.id ErrorCodeInvalidParams
          "Invalid resource read parameters" (some (Json.str e))) ∧
      (∀ p e, parseResourceParams req.params = Except.ok p →
        s.resourceHandler.ReadResource p = Except.error e →
        s.HandleRequest req = SendCall.sendError req.id ErrorCodeInvalidParams
          ("Resource read failed: " ++ e) none) ∧
      (∀ p r, parseResourceParams req.params = Except.ok p →
        s.resourceHandler.ReadResource p = Except.ok r →
        s.HandleRequest req = SendCall.sendResponse
          { jsonrpc := JSONRPCVersion, id := req.id, result := some r, error := none })) ∧
    (req.method = "prompts/get" →
      (∀ e, parsePromptParams req.params = Except.error e →
        s.HandleRequest req = SendCall.sendError req.id ErrorCodeInvalidParams
          "Invalid prompt parameters" (some (Json.str e))) ∧
      (∀ p e, parsePromptParams req.params = Except.ok p →
        s.promptHandler.GetPrompt p = Except.error e →
        s.HandleRequest req = SendCall.sendError req.id ErrorCodeInvalidParams
          ("Prompt call failed: " ++ e) none) ∧
      (∀ p r, parsePromptParams req.params = Except.ok p →
        s.promptHandler.GetPrompt p = Except.ok r →
        s.HandleRequest req = SendCall.sendResponse
          { jsonrpc := JSONRPCVersion, id := req.id, result := some r, error := none })) ∧
    (∀ q, exceptIsOk (parseToolCallParams q) = specParamsHasStringField q "name") ∧
    (∀ q, exceptIsOk (parseResourceParams q) = specParamsHasStringField q "uri") ∧
    (∀ q, exceptIsOk (parsePromptParams q) = specParamsHasStringField q "name") := by
  refine ⟨?_, ?_, ?_, ?_, ?_, ?_⟩
  · intro hm
    refine ⟨?_, ?_, ?_⟩
    · intro e he
      simp [Server.HandleRequest, hm, Server.handleToolsCall, he, Server.sendError]
    · intro p e hp he
      simp [Server.HandleRequest, hm, Server.handleToolsCall, hp, he, Server.sendError]
    · intro p r hp hr
      simp [Server.HandleRequest, hm, Server.handleToolsCall, hp, hr, Server.sendResponse]
  · intro hm
    refine ⟨?_, ?_, ?_⟩
    · intro e he
      simp [Server.HandleRequest, hm, Server.handleResourcesRead, he, Server.sendError]
    · intro p e hp he
      simp [Server.HandleRequest, hm, Server.handleResourcesRead, hp, he, Server.sendError]
    · intro p r hp hr
      simp [Server.HandleRequest, hm, Server.handleResourcesRead, hp, hr, Server.sendResponse]
  · intro hm
    refine ⟨?_, ?_, ?_⟩
    · intro e he
      simp [Server.HandleRequest, hm, Server.handlePromptsGet, he, Server.sendError]
    · intro p e hp he
      simp [Server.HandleRequest, hm, Server.handlePromptsGet, hp, he, Server.sendError]
    · intro p r hp hr
      simp [Server.HandleRequest, hm, Server.handlePromptsGet, hp, hr, Server.sendResponse]
  · intro q
    cases q with
    | null => rfl
    | bool b => rfl
    | num n => rfl
    | str txt => rfl
    | arr elems => rfl
    | obj fields =>
      rcases h : lookupField fields "name" with _ | v
      · simp [parseToolCallParams, specParamsHasStringField, exceptIsOk, h]
      · cases v <;> simp [parseToolCallParams, specParamsHasStringField, exceptIsOk, h]
  · intro q
    cases q with
    | null => rfl
    | bool b => rfl
    | num n => rfl
    | str txt => rfl
    | arr elems => rfl
    | obj fields =>
      rcases h : lookupField fields "uri" with _ | v
      · simp [parseResourceParams, specParamsHasStringField, exceptIsOk, h]
      · cases v <;> simp [parseResourceParams, specParamsHasStringField, exceptIsOk, h]
  · intro q
    cases q with
    | null => rfl
    | bool b => rfl
    | num n => rfl
    | str txt => rfl
    | arr elems => rfl
    | obj fields =>
      rcases h : lookupField fields "name" with _ | v
      · simp [parsePromptParams, specParamsHasStringField, exceptIsOk, h]
      · cases v <;> simp [parsePromptParams, specParamsHasStringField, exceptIsOk, h]

/-- Witness for C3 at a concrete tools/call request missing `name`. -/
theorem dispatcher_call_read_get_classification_witness :
    toolCallNoNameRequest.method = "tools/call" ∧
    parseToolCallParams toolCallNoNameRequest.params =
      Except.error "name parameter is required and must be a string" ∧
    trivialServer.HandleRequest toolCallNoNameRequest =
      SendCall.sendError toolCallNoNameRequest.id ErrorCodeInvalidParams
        "Invalid tool call parameters"
        (some (Json.str "name parameter is required and must be a string")) :=
  ⟨rfl, rfl,
   ((dispatcher_call_read_get_classification trivialServer toolCallNoNameRequest).1 rfl).1
     "name parameter is required and must be a string" rfl⟩

/-- C10: when `arguments` is present but not an object, extraction for
tools/call and prompts/get still succeeds and silently replaces the
arguments by an empty map. -/
theorem mistyped_arguments_silently_emptied (fields : List (String × Json))
    (name : String) (v : Json)
    (hname : lookupField fields "name" = some (Json.str name))
    (hargs : lookupField fields "arguments" = some v)
    (hnotobj : ∀ m, v ≠ Json.obj m) :
    parseToolCallParams (Json.obj fields) = Except.ok { name := name, arguments := [] } ∧
    parsePromptParams (Json.obj fields) = Except.ok { name := name, arguments := [] } := by
  constructor
  · cases v with
    | obj m => exact absurd rfl (hnotobj m)
    | null => simp [parseToolCallParams, hname, hargs]
    | bool b => simp [parseToolCallParams, hname, hargs]
    | num n => simp [parseToolCallParams, hname, hargs]
    | str txt => simp [parseToolCallParams, hname, hargs]
    | arr elems => simp [parseToolCallParams, hname, hargs]
  · cases v with
    | obj m => exact absurd rfl (hnotobj m)
    | null => simp [parsePromptParams, hname, hargs]
    | bool b => simp [parsePromptParams, hname, hargs]
    | num n => simp [parsePromptParams, hname, hargs]
    | str txt => simp [parsePromptParams, hname, hargs]
    | arr elems => simp [parsePromptParams, hname, hargs]

/-- Witness for C10 at a concrete params object whose `arguments` is a
string. -/
theorem mistyped_arguments_silently_emptied_witness :
    lookupField misTypedArgsFields "name" = some (Json.str "getTeaInfo") ∧
    lookupField misTypedArgsFields "arguments" = some (Json.str "oops") ∧
    parseToolCallParams (Json.obj misTypedArgsFields) =
      Except.ok { name := "getTeaInfo", arguments := [] } ∧
    parsePromptParams (Json.obj misTypedArgsFields) =
      Except.ok { name := "getTeaInfo", arguments := [] } := by
  have h := mistyped_arguments_silently_emptied misTypedArgsFields "getTeaInfo"
    (Json.str "oops") rfl rfl (fun m hm => Json.noConfusion hm)
  exact ⟨rfl, rfl, h.1, h.2⟩

/-- C5 counterexample: the stdout sender has no already-sent guard — a
second `SendResponse` on the same exchange writes a second response
instead of failing. -/
theorem stdout_sender_double_write_counterexample :
    stdoutSendTwice
      { jsonrpc := "2.0", id := Json.num 1, result := some (Json.obj []), error := none }
      { jsonrpc := "2.0", id := Json.num 1, result := some (Json.obj []), error := none } =
      (SendOutcome.written
        { jsonrpc := "2.0", id := Json.num 1, result := some (Json.obj []), error := none },
       SendOutcome.written
        { jsonrpc := "2.0", id := Json.num 1, result := some (Json.obj []), error := none }) :=
  rfl

/-- C5 amended: the HTTP direct sender writes exactly one response — the
first send on a fresh exchange writes, and any second SendResponse or
SendError attempt fails with "response already sent" without writing —
while the stdout sender has no such guard: every send attempt on it
writes, including a second one on the same exchange. -/
theorem direct_sender_single_write (r₁ r₂ : Response) (id : Json) (code : Int)
    (message : String) (data : Option Json) :
    HTTPResponseSender.SendResponse { sent := false } r₁ =
      ({ sent := true }, SendOutcome.written r₁) ∧
    (HTTPResponseSender.SendResponse { sent := false } r₁).1.SendResponse r₂ =
      ((HTTPResponseSender.SendResponse { sent := false } r₁).1,
       SendOutcome.failed "response already sent") ∧
    (HTTPResponseSender.SendResponse { sent := false } r₁).1.SendError id code message data =
      ((HTTPResponseSender.SendResponse { sent := false } r₁).1,
       SendOutcome.failed "response already sent") ∧
    stdoutSendTwice r₁ r₂ = (SendOutcome.written r₁, SendOutcome.written r₂) :=
  ⟨rfl, rfl, rfl, rfl⟩

/-- C6 counterexample: on stdio, a decoded request with a wrong JSON-RPC
version tag is logged and dropped — no invalid-request error response is
produced. -/
theorem stdio_version_check_counterexample :
    wrongVersionLine.asRequest = some wrongVersionRequest ∧
    wrongVersionRequest.jsonrpc ≠ JSONRPCVersion ∧
    handleMessage wrongVersionLine = StdioAction.dropped ∧
    stdioOutput trivialServer wrongVersionLine = [] := by
  refine ⟨rfl, by decide, rfl, rfl⟩

/-- C6 amended: a decoded request whose protocol-version tag differs from
"2.0" is never routed to a method handler on either transport; the HTTP
transport responds with an invalid-request error (the Accept-header error
taking precedence when that header is also invalid), while the stdio
transport logs the message and silently drops it without emitting any
response. -/
theorem version_check_rejection (s : Server) (l : RawLine) (lreq : Request)
    (p : PostRequest) (preq : Request)
    (hl : l.asRequest = some lreq) (hlv : lreq.jsonrpc ≠ JSONRPCVersion)
    (hb : p.body = some preq) (hpv : preq.jsonrpc ≠ JSONRPCVersion) :
    (handleMessage l = StdioAction.dropped ∧ stdioOutput s l = []) ∧
    ((∃ m, handlePost p = PostOutcome.errorBody
        (transportErrorResponse preq.id ErrorCodeInvalidRequest m none)) ∧
     ∀ q, handlePost p ≠ PostOutcome.sseDispatch q ∧
          handlePost p ≠ PostOutcome.jsonDispatch q) := by
  have hstdio : handleMessage l = StdioAction.dropped := by
    simp [handleMessage, hl, hlv]
  have hpost : ∃ m, handlePost p = PostOutcome.errorBody
      (transportErrorResponse preq.id ErrorCodeInvalidRequest m none) := by
    by_cases hc : (!(stringContains p.acceptHeader "application/json") &&
                   !(stringContains p.acceptHeader "text/event-stream")) = true
    · exact ⟨"Accept header must include application/json and/or text/event-stream",
        by simp [handlePost, hb, hc]⟩
    · exact ⟨"Invalid JSON-RPC version", by simp [handlePost, hb, hc, hpv]⟩
  obtain ⟨m, hm⟩ := hpost
  refine ⟨⟨hstdio, by simp [stdioOutput, hstdio]⟩, ⟨m, hm⟩, ?_⟩
  intro q
  rw [hm]
  exact ⟨fun h => PostOutcome.noConfusion h, fun h => PostOutcome.noConfusion h⟩

/-- Witness for C6's amended statement at a concrete wrong-version stdio
line and a concrete wrong-version POST. -/
theorem version_check_rejection_witness :
    wrongVersionLine.asRequest = some wrongVersionRequest ∧
    wrongVersionRequest.jsonrpc ≠ JSONRPCVersion ∧
    ((handleMessage wrongVersionLine = StdioAction.dropped ∧
      stdioOutput trivialServer wrongVersionLine = []) ∧
     ((∃ m, handlePost { acceptHeader := "application/json",
                         body := some wrongVersionRequest, decodeErrMsg := "" } =
         PostOutcome.errorBody
           (transportErrorResponse wrongVersionRequest.id ErrorCodeInvalidRequest m none)) ∧
      ∀ q, handlePost { acceptHeader := "application/json",
                        body := some wrongVersionRequest, decodeErrMsg := "" } ≠
             PostOutcome.sseDispatch q ∧
           handlePost { acceptHeader := "application/json",
                        body := some wrongVersionRequest, decodeErrMsg := "" } ≠
             PostOutcome.jsonDispatch q)) :=
  ⟨rfl, by decide,
   version_check_rejection trivialServer wrongVersionLine wrongVersionRequest
     { acceptHeader := "application/json", body := some wrongVersionRequest, decodeErrMsg := "" }
     wrongVersionRequest rfl (by decide) rfl (by decide)⟩

/-- C7: a stdio line that fails to decode yields exactly one emitted
error line — parse-error code, the sentinel id `-1` unless the raw
payload parses as an object with a non-null `id` (which is then used) —
and the read loop continues with the remaining lines. -/
theorem stdio_parse_error_recovery (s : Server) (l : RawLine) (rest : List StdioInput)
    (hbad : l.asRequest = none) :
    stdioLoop s (StdioInput.line l :: rest) =
      sendParseErrorResponse l :: stdioLoop s rest ∧
    sendParseErrorResponse l =
      { jsonrpc := JSONRPCVersion, id := recoverId l, result := none,
        error := some { code := ErrorCodeParseError, message := "Parse error",
                        data := some (Json.str l.decodeErrMsg) } } ∧
    (l.asMap = none → recoverId l = Json.num (-1)) ∧
    (∀ m, l.asMap = some m → lookupField m "id" = none → recoverId l = Json.num (-1)) ∧
    (∀ m, l.asMap = some m → lookupField m "id" = some Json.null →
      recoverId l = Json.num (-1)) ∧
    (∀ m v, l.asMap = some m → lookupField m "id" = some v → v ≠ Json.null →
      recoverId l = v) := by
  refine ⟨?_, rfl, ?_, ?_, ?_, ?_⟩
  · simp [stdioLoop, stdioOutput, handleMessage, hbad]
  · intro hm
    simp [recoverId, hm]
  · intro m hm hid
    simp [recoverId, hm, hid]
  · intro m hm hid
    simp [recoverId, hm, hid]
  · intro m v hm hid hv
    simp only [recoverId, hm, hid]

/-- Witness for C7 at a concrete undecodable line whose payload holds
`id` 7. -/
theorem stdio_parse_error_recovery_witness :
    malformedLine.asRequest = none ∧
    stdioLoop trivialServer [StdioInput.line malformedLine] =
      sendParseErrorResponse malformedLine :: stdioLoop trivialServer [] ∧
    recoverId malformedLine = Json.num 7 :=
  ⟨rfl, (stdio_parse_error_recovery trivialServer malformedLine [] rfl).1, rfl⟩

/-- C2 counterexample: an HTTP message with a null id whose Accept header
declares neither JSON nor event-stream receives a JSON-RPC error response
body — bytes are written for a notification. -/
theorem notification_bytes_counterexample :
    badAcceptPost.body = some notificationRequest ∧
    notificationRequest.id = Json.null ∧
    handlePost badAcceptPost = PostOutcome.errorBody
      (transportErrorResponse Json.null ErrorCodeInvalidRequest
        "Accept header must include application/json and/or text/event-stream" none) ∧
    postWritesResponseBody (handlePost badAcceptPost) = true :=
  ⟨rfl, rfl, rfl, rfl⟩

/-- C2 amended: on stdio a null-id message never causes any output,
regardless of method or version validity; on HTTP a null-id message that
passes the Accept-header and version checks is acknowledged with 204 No
Content and no response body, while a null-id message failing those
envelope checks receives an error response body. -/
theorem notifications_never_answered (s : Server) (l : RawLine) (lreq : Request)
    (p : PostRequest) (preq : Request)
    (hl : l.asRequest = some lreq) (hlid : lreq.id = Json.null)
    (hb : p.body = some preq) (hpid : preq.id = Json.null)
    (hacc : stringContains p.acceptHeader "application/json" = true ∨
            stringContains p.acceptHeader "text/event-stream" = true)
    (hver : preq.jsonrpc = JSONRPCVersion) :
    stdioOutput s l = [] ∧
    handlePost p = PostOutcome.noContent ∧
    postWritesResponseBody (handlePost p) = false := by
  have hstdio : stdioOutput s l = [] := by
    by_cases hv : lreq.jsonrpc = JSONRPCVersion
    · simp [stdioOutput, handleMessage, hl, hv, hlid]
    · simp [stdioOutput, handleMessage, hl, hv]
  have hcond : (!(stringContains p.acceptHeader "application/json") &&
                !(stringContains p.acceptHeader "text/event-stream")) = false := by
    rcases hacc with h | h <;> simp [h]
  have hpost : handlePost p = PostOutcome.noContent := by
    simp [handlePost, hb, hcond, hver, hpid]
  exact ⟨hstdio, hpost, by rw [hpost]; rfl⟩

/-- Witness for C2's amended statement at a concrete stdio notification
and a concrete JSON-accepting HTTP notification. -/
theorem notifications_never_answered_witness :
    ({ asRequest := some notificationRequest, asMap := none, decodeErrMsg := "" } :
        RawLine).asRequest = some notificationRequest ∧
    notificationRequest.id = Json.null ∧
    (stdioOutput trivialServer
        { asRequest := some notificationRequest, asMap := none, decodeErrMsg := "" } = [] ∧
     handlePost { acceptHeader := "application/json",
                  body := some notificationRequest, decodeErrMsg := "" } =
       PostOutcome.noContent ∧
     postWritesResponseBody
       (handlePost { acceptHeader := "application/json",
                     body := some notificationRequest, decodeErrMsg := "" }) = false) :=
  ⟨rfl, rfl,
   notifications_never_answered trivialServer
     { asRequest := some notificationRequest, asMap := none, decodeErrMsg := "" }
     notificationRequest
     { acceptHeader := "application/json", body := some notificationRequest, decodeErrMsg := "" }
     notificationRequest rfl rfl rfl rfl (Or.inl (by decide)) rfl⟩

/-- The frames a sequence of sends on an open session emits carry the
consecutive cursor values starting at the session's current cursor: the
cursor moves by exactly one per successful send and not at all on a
failed one. -/
theorem runSends_ids (inputs : List (String × Except String String)) :
    ∀ s : SSESession, s.closed = false →
      (runSends s inputs).2.map (fun f => f.id) =
        intRange s.eventID (runSends s inputs).2.length := by
  induction inputs with
  | nil =>
    intro s hs
    simp [runSends, intRange]
  | cons i rest ih =>
    obtain ⟨et, mr⟩ := i
    intro s hs
    cases mr with
    | error e =>
      simp only [runSends, SSESession.sendEvent, hs, if_false, Bool.false_eq_true]
      exact ih s hs
    | ok d =>
      simp only [runSends, SSESession.sendEvent, hs, if_false, Bool.false_eq_true,
        List.map_cons, List.length_cons]
      rw [ih { ID := s.ID, eventID := s.eventID + 1, closed := false } rfl]
      rfl

/-- C4: for any sequence of sendEvent calls on an open SSE session the
emitted `id:` values are the consecutive integers starting at the
session's cursor, increasing by exactly one per successfully emitted
event (named event type or not); a fresh session's cursor starts at 0,
or at `Last-Event-ID` + 1 when that header parses as an integer (absent
or unparseable headers restart at 0, `atoi` of the empty string being
`none`). -/
theorem sse_event_ids_consecutive (s : SSESession) (hs : s.closed = false)
    (inputs : List (String × Except String String))
    (lastEventID mcpSessionID : String) (nowNano : Int) :
    (runSends s inputs).2.map (fun f => f.id) =
      intRange s.eventID (runSends s inputs).2.length ∧
    (startSSEStream lastEventID mcpSessionID nowNano).closed = false ∧
    (startSSEStream lastEventID mcpSessionID nowNano).eventID =
      (match atoi lastEventID with
       | some n => n + 1
       | none => 0) := by
  refine ⟨runSends_ids inputs s hs, rfl, ?_⟩
  by_cases h : lastEventID = ""
  · subst h
    rfl
  · simp [startSSEStream, h]

/-- Witness for C4 at a fresh session with two successful sends and a
resumed stream with Last-Event-ID 41. -/
theorem sse_event_ids_consecutive_witness :
    freshSession.closed = false ∧
    ((runSends freshSession [("", Except.ok "x"), ("connected", Except.ok "y")]).2.map
        (fun f => f.id) =
      intRange freshSession.eventID
        (runSends freshSession [("", Except.ok "x"), ("connected", Except.ok "y")]).2.length ∧
     (startSSEStream "41" "s" 0).closed = false ∧
     (startSSEStream "41" "s" 0).eventID =
       (match atoi "41" with
        | some n => n + 1
        | none => 0)) :=
  ⟨rfl, sse_event_ids_consecutive freshSession rfl
    [("", Except.ok "x"), ("connected", Except.ok "y")] "41" "s" 0⟩

/-- C8 counterexample: the registered-iff-open invariant fails on two
reachable states — an SSE-promoted POST exchange leaves its session
registered after its connection has ended, and a client disconnecting
from a blocked GET ends the stream while the session stays registered,
because `handleGet` waits on the transport's root context rather than
the request's. -/
theorem registry_invariant_counterexample :
    ¬ registryInvariant (runTransport [TransportEvent.ssePost "" "sessA" 0]) ∧
    ¬ registryInvariant (runTransport
        [TransportEvent.getOpen "" "sessB" 0, TransportEvent.getDisconnect "sessB"]) := by
  constructor
  · intro hinv
    have hstate : runTransport [TransportEvent.ssePost "" "sessA" 0] =
        { sessions := [("sessA", { ID := "sessA", eventID := 0, closed := false })],
          openStreams := [] } := rfl
    have hmem := (hinv "sessA").mp
      ⟨{ ID := "sessA", eventID := 0, closed := false },
       by rw [hstate]; exact List.mem_cons_self _ _⟩
    rw [hstate] at hmem
    exact List.not_mem_nil _ hmem
  · intro hinv
    have hstate : runTransport
        [TransportEvent.getOpen "" "sessB" 0, TransportEvent.getDisconnect "sessB"] =
        { sessions := [("sessB", { ID := "sessB", eventID := 0, closed := false })],
          openStreams := [] } := rfl
    have hmem := (hinv "sessB").mp
      ⟨{ ID := "sessB", eventID := 0, closed := false },
       by rw [hstate]; exact List.mem_cons_self _ _⟩
    rw [hstate] at hmem
    exact List.not_mem_nil _ hmem

/-- C8 amended: registry cleanup happens only on root-context
cancellation or Stop.  When the transport's root context is cancelled
(server shutdown), the blocked GET handler removes its session id from
the registry; a client disconnect removes nothing, since the handler
waits on the transport's root context rather than the request's; and
`Stop` clears the whole registry.  Sessions whose streams have died any
other way (SSE-promoted POST completion, GET client disconnect) remain
registered until one of those two cleanups. -/
theorem registry_cleanup_only_on_cancellation (st : HTTPTransportState) (sid : String) :
    (∀ s : SSESession, (sid, s) ∉ (transportStep st (TransportEvent.getCancel sid)).sessions) ∧
    (transportStep st (TransportEvent.getDisconnect sid)).sessions = st.sessions ∧
    (transportStep st TransportEvent.stop).sessions = [] := by
  refine ⟨?_, rfl, rfl⟩
  intro s hmem
  simp [transportStep, removeSession, List.mem_filter] at hmem

/-- C9: after `HTTPTransport.Stop`, the registry is empty and every
previously registered session is marked closed, so any subsequent send
attempt on it fails immediately with "session closed" and writes
nothing (the session state is unchanged and no frame is produced). -/
theorem stop_closes_sessions_and_clears_registry (st : HTTPTransportState) :
    (Stop st).1.sessions = [] ∧
    (Stop st).1.openStreams = [] ∧
    ∀ s ∈ (Stop st).2, s.closed = true ∧
      ∀ et mr, s.sendEvent et mr = (s, Except.error "session closed") := by
  refine ⟨rfl, rfl, ?_⟩
  intro s hs
  simp only [Stop] at hs
  obtain ⟨p, hp, rfl⟩ := List.mem_map.mp hs
  refine ⟨rfl, ?_⟩
  intro et mr
  simp [SSESession.sendEvent, SSESession.close]

/-- Witness for C9 at a concrete one-session transport state. -/
theorem stop_closes_sessions_and_clears_registry_witness :
    ({ ID := "a", eventID := 5, closed := true } : SSESession) ∈ (Stop stopSampleState).2 ∧
    (({ ID := "a", eventID := 5, closed := true } : SSESession).closed = true ∧
     ∀ et mr, SSESession.sendEvent { ID := "a", eventID := 5, closed := true } et mr =
       ({ ID := "a", eventID := 5, closed := true }, Except.error "session closed")) := by
  have hmem : ({ ID := "a", eventID := 5, closed := true } : SSESession) ∈
      (Stop stopSampleState).2 := by
    rw [show (Stop stopSampleState).2 =
      [{ ID := "a", eventID := 5, closed := true }] from rfl]
    exact List.mem_cons_self _ _
  exact ⟨hmem, (stop_closes_sessions_and_clears_registry stopSampleState).2.2 _ hmem⟩
